import Mathlib

/-!
Verification development for the spark-etl-agent repository.

The Python sources are shallowly embedded: each service method becomes a Lean
function over an explicit environment record describing the behaviour of the
external collaborators (warehouse, object store, notifier), and every external
call is recorded in an event trace.  Python exceptions are modelled with
Except; dictionary keys that may be absent are modelled with Option.
Python float arithmetic in the variance detector is modelled over the exact
rationals.
-/

namespace SparkEtl

/-- External-collaborator calls, recorded as an event trace.
Mirrors the call sites in utils/db_utils.py, services/s3_service.py and
services/email_service.py; invokeHandler marks the dispatch of a job handler
in services/job_service.py. -/
inductive Ev where
  | truncateTable (table : String)
  | getCount (table : String)
  | readTable (table : String)
  | writeTable (table : String) (mode : String)
  | executeQuery (connection : String)
  | s3Delete
  | s3Write
  | emailVariance
  | emailCompletion (status : String)
  | invokeHandler (jobType : String)
  deriving DecidableEq, Repr

/-- Subset of core/config.py Settings carrying the fields the verified claims
depend on: the ten fields checked by validate_for_job_type plus the variance
threshold (DATA_VARIANCE_THRESHOLD, a Python float modelled as a rational). -/
structure Settings where
  CDP_REDSHIFT_HOST : String
  CDP_REDSHIFT_DATABASE : String
  CDP_REDSHIFT_USER : String
  CDP_REDSHIFT_PASSWORD : String
  JCAP_REDSHIFT_HOST : String
  JCAP_REDSHIFT_DATABASE : String
  JCAP_REDSHIFT_USER : String
  JCAP_REDSHIFT_PASSWORD : String
  S3_BUCKET : String
  S3_IAM_ROLE : String
  DATA_VARIANCE_THRESHOLD : ℚ
  deriving DecidableEq

/-- JobConfig dictionary (src/app.py, services/job_service.py): every key may
be absent, hence Option-valued fields. -/
structure JobConfig where
  id? : Option String
  name? : Option String
  type? : Option String
  load_date? : Option String
  limit? : Option Nat
  deriving DecidableEq

/-- Errors raised inside services/jcap_pa_etl_service.py.  Each constructor
corresponds to one raise site; the two wrapping constructors model the
re-raise in the enclosing except blocks of _create_and_validate_backup and
_load_to_destination. -/
inductive JcapError where
  | truncateFailed (table : String)
  | copyFailed
  | backupValidation (original backup copied : Nat)
  | backupCreationFailed (inner : JcapError)
  | extractFailed
  | transformFailed
  | stageFailed
  | writeFailed
  | emptyLoad
  | loadFailed (inner : JcapError)
  deriving DecidableEq, Repr

/-- Errors raised inside services/etl_service.py (Control M POC ETL). -/
inductive PocError where
  | readFailed
  | writeFailed
  deriving DecidableEq, Repr

/-- Error payloads occurring in the error field of a job result dictionary
(services/job_service.py): the unknown-job-type message, the configuration
validation message carrying the list of missing fields, or the message of an
exception caught inside one of the two handlers. -/
inductive ResultError where
  | unknownJobType (jobType : String) (supported : List String)
  | configurationFailed (jobType : String) (missing : List String)
  | jcap (e : JcapError)
  | poc (e : PocError)
  deriving DecidableEq, Repr

/-- Result dictionary returned by execute_job and by the two handlers.
Option-valued fields model key presence in the Python dict: none means the
key is absent from the dictionary. -/
structure JobResult where
  status : String
  rows_processed : Option Nat
  error : Option ResultError
  previous_count : Option Nat
  current_count : Option Nat
  variance_percentage : Option ℚ
  variance_threshold_exceeded : Option Bool
  email_sent : Option Bool
  job_id : Option String
  job_name : Option String
  job_type : Option String
  deriving DecidableEq

/-! Configuration validation (core/config.py, Settings.validate_for_job_type). -/

/-- The required (field-name, field-value) pairs checked for the jcap_pa_etl
job type, in the order the source checks them. -/
def requiredFieldsJcap (s : Settings) : List (String × String) :=
  [("CDP_REDSHIFT_HOST", s.CDP_REDSHIFT_HOST),
   ("CDP_REDSHIFT_DATABASE", s.CDP_REDSHIFT_DATABASE),
   ("CDP_REDSHIFT_USER", s.CDP_REDSHIFT_USER),
   ("CDP_REDSHIFT_PASSWORD", s.CDP_REDSHIFT_PASSWORD),
   ("JCAP_REDSHIFT_HOST", s.JCAP_REDSHIFT_HOST),
   ("JCAP_REDSHIFT_DATABASE", s.JCAP_REDSHIFT_DATABASE),
   ("JCAP_REDSHIFT_USER", s.JCAP_REDSHIFT_USER),
   ("JCAP_REDSHIFT_PASSWORD", s.JCAP_REDSHIFT_PASSWORD),
   ("S3_BUCKET", s.S3_BUCKET),
   ("S3_IAM_ROLE", s.S3_IAM_ROLE)]

/-- missing_fields accumulated by Settings.validate_for_job_type: the ten
sequential emptiness checks of the source are the filter of the ordered
required-field list on emptiness. -/
def missingFields (s : Settings) : List String :=
  ((requiredFieldsJcap s).filter (fun p => p.2 = "")).map Prod.fst

/-- Settings.validate_for_job_type: only the jcap_pa_etl job type has checks;
the raised ValueError carries the full list of missing fields. -/
def validate_for_job_type (s : Settings) (jobType : String) :
    Except (List String) Unit :=
  if jobType = "jcap_pa_etl" then
    if missingFields s = [] then .ok () else .error (missingFields s)
  else .ok ()

/-! Secrets-manager loading (core/config.py, Settings._load_from_secrets_manager,
and the module layout of the repository). -/

/-- The importable module names of this repository, from the files present
under src/ (note utils.secrets_manger, with the transposed letters, is the
module that actually exists on disk). -/
def repoModules : List String :=
  ["app", "core.config", "core.logging", "core.spark",
   "services.email_service", "services.etl_service",
   "services.jcap_pa_etl_service", "services.job_service",
   "services.s3_service", "utils.db_utils", "utils.secrets_manger"]

/-- The module name that core/config.py line 114 tries to import. -/
def secretsImportName : String := "utils.secrets_manager"

/-- Python module import against the repository layout: succeeds exactly when
the named module exists. -/
def importModule (name : String) : Except String Unit :=
  if repoModules.contains name then .ok ()
  else .error ("No module named " ++ name)

/-- Values the secrets provider would return for each secret key: none models
a key that is absent or an unreachable provider. -/
def SecretsOracle : Type := String → Option String

/-- Application of the secret_mappings loop of _load_from_secrets_manager to
the modelled Settings fields: each field is overwritten only when the provider
returns a truthy (non-empty) value for its key. -/
def applySecrets (s : Settings) (secrets : SecretsOracle) : Settings :=
  let pick (key : String) (old : String) : String :=
    match secrets key with
    | some v => if v = "" then old else v
    | none => old
  { s with
    CDP_REDSHIFT_HOST := pick "CDP_REDSHIFT_HOST" s.CDP_REDSHIFT_HOST,
    CDP_REDSHIFT_DATABASE := pick "CDP_REDSHIFT_DATABASE" s.CDP_REDSHIFT_DATABASE,
    CDP_REDSHIFT_USER := pick "CDP_REDSHIFT_USER" s.CDP_REDSHIFT_USER,
    CDP_REDSHIFT_PASSWORD := pick "CDP_REDSHIFT_PASSWORD" s.CDP_REDSHIFT_PASSWORD,
    JCAP_REDSHIFT_HOST := pick "JCAP_REDSHIFT_HOST" s.JCAP_REDSHIFT_HOST,
    JCAP_REDSHIFT_DATABASE := pick "JCAP_REDSHIFT_DATABASE" s.JCAP_REDSHIFT_DATABASE,
    JCAP_REDSHIFT_USER := pick "JCAP_REDSHIFT_USER" s.JCAP_REDSHIFT_USER,
    JCAP_REDSHIFT_PASSWORD := pick "JCAP_REDSHIFT_PASSWORD" s.JCAP_REDSHIFT_PASSWORD,
    S3_BUCKET := pick "S3_BUCKET" s.S3_BUCKET,
    S3_IAM_ROLE := pick "S3_IAM_ROLE" s.S3_IAM_ROLE }

/-- Settings._load_from_secrets_manager: attempts to import
utils.secrets_manager; on any exception (including the import failing) the
except block logs a warning and leaves every field as initialised from
environment variables and defaults.  Returns the resulting settings and
whether the secrets provider was consulted. -/
def load_from_secrets_manager (s : Settings) (secrets : SecretsOracle) :
    Settings × Bool :=
  match importModule secretsImportName with
  | .error _ => (s, false)
  | .ok _ => (applySecrets s secrets, true)

/-! Production workflow (services/jcap_pa_etl_service.py). -/

/-- Table names configured in JcapPaEtlService.__init__. -/
def main_table : String := "jcap_pa"

/-- Backup table name configured in JcapPaEtlService.__init__. -/
def backup_table : String := "jcap_pa_bkp"

/-- Behaviour of the external collaborators during one execution of the
production workflow: whether each external call succeeds and what each row
count read returns.  Distinct count fields model reads of the same table at
different instants. -/
structure JcapEnv where
  truncateBackupOk : Bool
  mainCount : Nat
  copyOk : Bool
  copiedRows : Nat
  backupCount : Nat
  extractOk : Bool
  extractRows : Nat
  transformOk : Bool
  s3PathExists : Bool
  stageOk : Bool
  truncateMainOk : Bool
  writeOk : Bool
  finalCount : Nat
  currentCount : Nat
  alertEmailSent : Bool
  deriving DecidableEq

/-- JcapPaEtlService._create_and_validate_backup: truncate the backup table,
read the main-table count, skip the copy when it is zero, otherwise copy and
compare counts; any exception is re-wrapped as a backup-creation failure. -/
def create_and_validate_backup (env : JcapEnv) :
    Except JcapError Nat × List Ev :=
  if !env.truncateBackupOk then
    (.error (.backupCreationFailed (.truncateFailed backup_table)),
     [.truncateTable backup_table])
  else
    let ev0 : List Ev := [.truncateTable backup_table, .getCount main_table]
    if env.mainCount = 0 then (.ok 0, ev0)
    else
      let ev1 := ev0 ++ [.readTable main_table, .writeTable backup_table "append"]
      if !env.copyOk then (.error (.backupCreationFailed .copyFailed), ev1)
      else
        let ev2 := ev1 ++ [.getCount backup_table]
        if env.mainCount ≠ env.backupCount then
          (.error (.backupCreationFailed
             (.backupValidation env.mainCount env.backupCount env.copiedRows)), ev2)
        else (.ok env.mainCount, ev2)

/-- JcapPaEtlService._extract_cdp_data: run the extraction query against the
CDP connection, returning the extracted row count. -/
def extract_cdp_data (env : JcapEnv) : Except JcapError Nat × List Ev :=
  if env.extractOk then (.ok env.extractRows, [.executeQuery "cdp"])
  else (.error .extractFailed, [.executeQuery "cdp"])

/-- JcapPaEtlService._transform_data: per-row column transform, no external
call and no row dropped, so the row count is preserved. -/
def transform_data (env : JcapEnv) (rows : Nat) : Except JcapError Nat :=
  if env.transformOk then .ok rows else .error .transformFailed

/-- JcapPaEtlService._stage_to_s3: delete the S3 path when it exists, then
write the Parquet files. -/
def stage_to_s3 (env : JcapEnv) : Except JcapError Unit × List Ev :=
  let evs := (if env.s3PathExists then [Ev.s3Delete] else []) ++ [Ev.s3Write]
  if env.stageOk then (.ok (), evs) else (.error .stageFailed, evs)

/-- JcapPaEtlService._load_to_destination: truncate the main table, write the
transformed rows in append mode, read the count back; a zero count raises,
a non-zero mismatch with the written count is only a logged warning; every
exception is re-wrapped as a destination-load failure. -/
def load_to_destination (env : JcapEnv) (_row_count : Nat) :
    Except JcapError Unit × List Ev :=
  if !env.truncateMainOk then
    (.error (.loadFailed (.truncateFailed main_table)), [.truncateTable main_table])
  else
    let ev1 : List Ev := [.truncateTable main_table, .writeTable main_table "append"]
    if !env.writeOk then (.error (.loadFailed .writeFailed), ev1)
    else
      let ev2 := ev1 ++ [.getCount main_table]
      if env.finalCount = 0 then (.error (.loadFailed .emptyLoad), ev2)
      else (.ok (), ev2)

/-- Variance percentage computed by JcapPaEtlService._validate_and_alert:
abs(current - previous) over the previous count, as a percentage, and zero
when the previous count is not positive. -/
def variance_percentage (previous_count current_count : Nat) : ℚ :=
  let variance : Nat := ((current_count : ℤ) - (previous_count : ℤ)).natAbs
  if 0 < previous_count then
    ((variance : ℚ) / (previous_count : ℚ)) * 100
  else 0

/-- Outcome dictionary of _validate_and_alert. -/
structure VarianceResult where
  variance_pct : ℚ
  threshold_exceeded : Bool
  email_sent : Bool
  deriving DecidableEq

/-- JcapPaEtlService._validate_and_alert: the threshold comparison is
boundary-inclusive; the variance alert email is attempted exactly when
the threshold is met, and its delivery outcome is recorded, not escalated. -/
def validate_and_alert (threshold : ℚ) (alertEmailSent : Bool)
    (previous_count current_count : Nat) : VarianceResult × List Ev :=
  let vp := variance_percentage previous_count current_count
  if threshold ≤ vp then
    ({ variance_pct := vp, threshold_exceeded := true,
       email_sent := alertEmailSent }, [Ev.emailVariance])
  else
    ({ variance_pct := vp, threshold_exceeded := false, email_sent := false }, [])

/-- Failed result dictionary built in the except block of run_jcap_pa_etl
(and, with a poc error, of run_control_m_poc_etl): note it carries no
rows_processed key. -/
def handlerFailedResult (e : ResultError) : JobResult :=
  { status := "Failed", rows_processed := none, error := some e,
    previous_count := none, current_count := none, variance_percentage := none,
    variance_threshold_exceeded := none, email_sent := none,
    job_id := none, job_name := none, job_type := none }

/-- JcapPaEtlService.run_jcap_pa_etl: the six-step production workflow; any
step raising aborts the remaining steps, sends a failure notification and
returns the Failed dictionary; on success the result carries the counts,
variance fields and the post-load count as rows_processed. -/
def run_jcap_pa_etl (s : Settings) (env : JcapEnv) : JobResult × List Ev :=
  match create_and_validate_backup env with
  | (.error e, ev0) =>
      (handlerFailedResult (.jcap e), ev0 ++ [.emailCompletion "Failed"])
  | (.ok previous_count, ev0) =>
    match extract_cdp_data env with
    | (.error e, ev1) =>
        (handlerFailedResult (.jcap e), ev0 ++ ev1 ++ [.emailCompletion "Failed"])
    | (.ok rows, ev1) =>
      match transform_data env rows with
      | .error e =>
          (handlerFailedResult (.jcap e), ev0 ++ ev1 ++ [.emailCompletion "Failed"])
      | .ok rowsT =>
        match stage_to_s3 env with
        | (.error e, ev2) =>
            (handlerFailedResult (.jcap e),
             ev0 ++ ev1 ++ ev2 ++ [.emailCompletion "Failed"])
        | (.ok _, ev2) =>
          match load_to_destination env rowsT with
          | (.error e, ev3) =>
              (handlerFailedResult (.jcap e),
               ev0 ++ ev1 ++ ev2 ++ ev3 ++ [.emailCompletion "Failed"])
          | (.ok _, ev3) =>
            let current_count := env.currentCount
            let vr := validate_and_alert s.DATA_VARIANCE_THRESHOLD
                        env.alertEmailSent previous_count current_count
            ({ status := "Success", rows_processed := some current_count,
               error := none, previous_count := some previous_count,
               current_count := some current_count,
               variance_percentage := some vr.1.variance_pct,
               variance_threshold_exceeded := some vr.1.threshold_exceeded,
               email_sent := some vr.1.email_sent,
               job_id := none, job_name := none, job_type := none },
             ev0 ++ ev1 ++ ev2 ++ ev3 ++ [.getCount main_table] ++ vr.2
               ++ [.emailCompletion "Success"])

/-! Development job (services/etl_service.py). -/

/-- Behaviour of the external collaborators during one execution of the
Control M POC ETL job. -/
structure PocEnv where
  readOk : Bool
  sourceRows : Nat
  writeOk : Bool
  deriving DecidableEq

/-- ETLService.run_control_m_poc_etl: read the source view with the row limit
(read_table applies the limit only when it is positive), add the load_date
column and select columns (both count-preserving), append-write to the
destination table; its except block returns a Failed dictionary without a
rows_processed key. -/
def run_control_m_poc_etl (env : PocEnv) (limit : Nat) : JobResult × List Ev :=
  let ev0 : List Ev := [.readTable "dna_actln_dwh.vw_patients_opsumit_cap"]
  if !env.readOk then (handlerFailedResult (.poc .readFailed), ev0)
  else
    let row_count := if 0 < limit then min env.sourceRows limit else env.sourceRows
    let ev1 := ev0 ++ [.writeTable "dna_actln_dwh.ControlM_New_test" "append"]
    if !env.writeOk then (handlerFailedResult (.poc .writeFailed), ev1)
    else
      ({ status := "Success", rows_processed := some row_count, error := none,
         previous_count := none, current_count := none,
         variance_percentage := none, variance_threshold_exceeded := none,
         email_sent := none, job_id := none, job_name := none,
         job_type := none }, ev1)

/-! Job dispatcher (services/job_service.py). -/

/-- Keys of JobService.supported_job_types. -/
def supported_job_types : List String := ["control_m_poc_etl", "jcap_pa_etl"]

/-- Job type resolved by execute_job: the type key of the configuration, with
the silent default control_m_poc_etl when the key is absent. -/
def resolvedJobType (cfg : JobConfig) : String :=
  cfg.type?.getD "control_m_poc_etl"

/-- JobService._create_error_result: the standardized Failed dictionary, which
does carry rows_processed = 0. -/
def create_error_result (job_id job_name job_type : String) (e : ResultError) :
    JobResult :=
  { status := "Failed", rows_processed := some 0, error := some e,
    previous_count := none, current_count := none, variance_percentage := none,
    variance_threshold_exceeded := none, email_sent := none,
    job_id := some job_id, job_name := some job_name, job_type := some job_type }

/-- JobService.execute_job: resolve identity and type with their defaults,
reject unknown types, validate the configuration for the resolved type, then
dispatch to the handler and merge the job identity metadata into its result.
The event trace additionally records the handler dispatch. -/
def execute_job (s : Settings) (cfg : JobConfig) (jenv : JcapEnv)
    (penv : PocEnv) : JobResult × List Ev :=
  let job_id := cfg.id?.getD "unknown"
  let job_name := cfg.name?.getD ("job-" ++ job_id)
  let job_type := resolvedJobType cfg
  if !(supported_job_types.contains job_type) then
    (create_error_result job_id job_name job_type
       (.unknownJobType job_type supported_job_types), [])
  else
    match validate_for_job_type s job_type with
    | .error missing =>
        (create_error_result job_id job_name job_type
           (.configurationFailed job_type missing), [])
    | .ok _ =>
      let handled :=
        if job_type = "control_m_poc_etl" then
          run_control_m_poc_etl penv (cfg.limit?.getD 10)
        else
          run_jcap_pa_etl s jenv
      ({ handled.1 with
           job_id := some job_id,
           job_name := some job_name,
           job_type := some job_type },
       Ev.invokeHandler job_type :: handled.2)

/-! Continuous run supervisor (src/app.py, run_continuous_jobs). -/

/-- The stats dictionary of run_continuous_jobs (start_time omitted: wall
clock time is outside the embedding). -/
structure RunStats where
  total_runs : Nat
  successful_runs : Nat
  failed_runs : Nat
  total_rows_processed : Nat
  deriving DecidableEq, Repr

/-- Initial stats dictionary. -/
def initStats : RunStats :=
  { total_runs := 0, successful_runs := 0, failed_runs := 0,
    total_rows_processed := 0 }

/-- Outcome of one call of execute_single_job as seen by the supervisor loop:
a result with Success status and its rows_processed, a result with any other
status, or an unhandled exception caught by the except block. -/
inductive RunOutcome where
  | success (rows : Nat)
  | failed
  | exn
  deriving DecidableEq, Repr

/-- Statistics update performed by one iteration of the while body: total_runs
is incremented before the run, then exactly one of successful_runs and
failed_runs is incremented, and total_rows_processed grows only on success. -/
def updateStats (s : RunStats) (o : RunOutcome) : RunStats :=
  let s := { s with total_runs := s.total_runs + 1 }
  match o with
  | .success rows =>
      { s with successful_runs := s.successful_runs + 1,
               total_rows_processed := s.total_rows_processed + rows }
  | .failed => { s with failed_runs := s.failed_runs + 1 }
  | .exn => { s with failed_runs := s.failed_runs + 1 }

/-- The inter-run wait: up to k one-second ticks, polling the shutdown flag
before each tick and breaking out as soon as it is observed.  The flag is a
function of the global poll index t (it is set asynchronously by the signal
handler); the result is whether shutdown was observed and the next poll
index. -/
def waitPolls (flag : Nat → Bool) : Nat → Nat → Bool × Nat
  | 0, t => (false, t)
  | k + 1, t => if flag t then (true, t + 1) else waitPolls flag k (t + 1)

/-- One iteration of the while body after its guard: run the job and update
the statistics, then poll the flag once (the post-run check) and, when it is
clear, run the per-second polls of the inter-run wait.  Returns the new stats
and the next poll index. -/
def iterBody (flag : Nat → Bool) (interval : Nat) (s : RunStats)
    (o : RunOutcome) (t : Nat) : RunStats × Nat :=
  let s1 := updateStats s o
  if flag t then (s1, t + 1)
  else (s1, (waitPolls flag interval (t + 1)).2)

/-- run_continuous_jobs as a step relation driven by fuel: each step checks
the while guard (one flag poll), executes the run, and performs the post-run
poll and the inter-run wait.  outcomes gives the result of run number i;
fuel bounds how many further runs this execution is observed for, so the
returned stats are the stats after some number of completed runs. -/
def contLoop (flag : Nat → Bool) (outcomes : Nat → RunOutcome)
    (interval : Nat) : Nat → RunStats → Nat → Nat → RunStats × Nat
  | 0, s, _, t => (s, t)
  | fuel + 1, s, i, t =>
    if flag t then (s, t + 1)
    else
      let p := iterBody flag interval s (outcomes i) (t + 1)
      contLoop flag outcomes interval fuel p.1 (i + 1) p.2

/-- A shutdown flag that is never raised. -/
def noShutdown : Nat → Bool := fun _ => false

/-- The outcomes of fuel consecutive runs starting at run i. -/
def runSeq (outcomes : Nat → RunOutcome) : Nat → Nat → List RunOutcome
  | _, 0 => []
  | i, fuel + 1 => outcomes i :: runSeq outcomes (i + 1) fuel

/-- Statistics accumulated over a list of run outcomes from the initial
stats dictionary. -/
def statsAfter (l : List RunOutcome) : RunStats :=
  l.foldl updateStats initStats

/-! Shared concrete fixtures for witnesses and counterexamples. -/

/-- A fully populated configuration (no missing required fields). -/
def settingsOk : Settings :=
  { CDP_REDSHIFT_HOST := "cdp-host", CDP_REDSHIFT_DATABASE := "cdpdb",
    CDP_REDSHIFT_USER := "cdpuser", CDP_REDSHIFT_PASSWORD := "cdppw",
    JCAP_REDSHIFT_HOST := "jcap-host", JCAP_REDSHIFT_DATABASE := "jcapdb",
    JCAP_REDSHIFT_USER := "jcapuser", JCAP_REDSHIFT_PASSWORD := "jcappw",
    S3_BUCKET := "bucket", S3_IAM_ROLE := "role",
    DATA_VARIANCE_THRESHOLD := 5 }

/-- An environment in which every external call succeeds and all counts
agree. -/
def envBase : JcapEnv :=
  { truncateBackupOk := true, mainCount := 1000, copyOk := true,
    copiedRows := 1000, backupCount := 1000, extractOk := true,
    extractRows := 1000, transformOk := true, s3PathExists := false,
    stageOk := true, truncateMainOk := true, writeOk := true,
    finalCount := 1000, currentCount := 1000, alertEmailSent := true }

/-- A benign environment for the development job. -/
def pocBase : PocEnv := { readOk := true, sourceRows := 25, writeOk := true }

/-- A configuration whose jcap-required fields CDP_REDSHIFT_HOST and
JCAP_REDSHIFT_USER are empty. -/
def settingsMissingTwo : Settings :=
  { settingsOk with CDP_REDSHIFT_HOST := "", JCAP_REDSHIFT_USER := "" }

/-- A production-type job configuration. -/
def cfgJcap : JobConfig :=
  { id? := some "jcap1", name? := some "JCAP PA ETL daily",
    type? := some "jcap_pa_etl", load_date? := some "2025-05-20",
    limit? := none }

/-- A job configuration without a type key. -/
def cfgNoType : JobConfig :=
  { id? := some "j3", name? := none, type? := none,
    load_date? := none, limit? := none }

/-- An environment whose very first external call, the truncation of the
backup table, fails. -/
def envBackupFail : JcapEnv := { envBase with truncateBackupOk := false }

/-! Claim theorems. -/

/-- C1: in the production workflow, whenever _create_and_validate_backup
observes original_count different from backup_count, run_jcap_pa_etl returns
a Failed result carrying the backup-validation error and the main production
table is never truncated (no truncate event for it occurs in the whole
execution). -/
theorem backup_mismatch_never_truncates_production
    (s : Settings) (env : JcapEnv)
    (htr : env.truncateBackupOk = true) (hc : env.copyOk = true)
    (hnz : env.mainCount ≠ 0) (hne : env.mainCount ≠ env.backupCount) :
    (run_jcap_pa_etl s env).1.status = "Failed" ∧
    (run_jcap_pa_etl s env).1.error =
      some (.jcap (.backupCreationFailed
        (.backupValidation env.mainCount env.backupCount env.copiedRows))) ∧
    Ev.truncateTable main_table ∉ (run_jcap_pa_etl s env).2 := by
  have hb : create_and_validate_backup env =
      (.error (.backupCreationFailed
         (.backupValidation env.mainCount env.backupCount env.copiedRows)),
       [.truncateTable backup_table, .getCount main_table,
        .readTable main_table, .writeTable backup_table "append",
        .getCount backup_table]) := by
    simp [create_and_validate_backup, htr, hc, hnz, hne]
  simp [run_jcap_pa_etl, hb, handlerFailedResult, main_table, backup_table]

/-- C1 witness: a concrete mismatching backup (original 10 rows, backup 9). -/
theorem backup_mismatch_never_truncates_production_witness :
    (run_jcap_pa_etl settingsOk
        { envBase with mainCount := 10, backupCount := 9, copiedRows := 9
        }).1.status = "Failed" ∧
    (run_jcap_pa_etl settingsOk
        { envBase with mainCount := 10, backupCount := 9, copiedRows := 9
        }).1.error =
      some (.jcap (.backupCreationFailed (.backupValidation 10 9 9))) ∧
    Ev.truncateTable main_table ∉
      (run_jcap_pa_etl settingsOk
        { envBase with mainCount := 10, backupCount := 9, copiedRows := 9
        }).2 :=
  backup_mismatch_never_truncates_production settingsOk
    { envBase with mainCount := 10, backupCount := 9, copiedRows := 9 }
    rfl rfl (by decide) (by decide)

/-- C2: in every execution of _load_to_destination whose truncate and write
calls succeed, the method raises exactly when the post-write count of the
production table is zero (the empty-load error), and returns normally for
every non-zero post-write count, whether or not it matches the written
in-memory row count (the mismatch is only a logged warning). -/
theorem load_raises_iff_postwrite_count_zero
    (env : JcapEnv) (row_count : Nat)
    (htr : env.truncateMainOk = true) (hw : env.writeOk = true) :
    ((load_to_destination env row_count).1 =
        .error (.loadFailed .emptyLoad) ↔ env.finalCount = 0) ∧
    (env.finalCount ≠ 0 → (load_to_destination env row_count).1 = .ok ()) := by
  simp only [load_to_destination, htr, hw, Bool.not_true, Bool.false_eq_true,
    if_false]
  by_cases h : env.finalCount = 0 <;> simp [h]

/-- C2 witness: with a zero post-write count the load fails with the
empty-load error; with post-write count 3 and written count 7 (a mismatch)
it returns normally. -/
theorem load_raises_iff_postwrite_count_zero_witness :
    (((load_to_destination { envBase with finalCount := 0 } 7).1 =
        .error (.loadFailed .emptyLoad) ↔
        ({ envBase with finalCount := 0 } : JcapEnv).finalCount = 0) ∧
     (({ envBase with finalCount := 0 } : JcapEnv).finalCount ≠ 0 →
        (load_to_destination { envBase with finalCount := 0 } 7).1 = .ok ())) ∧
    (((load_to_destination { envBase with finalCount := 3 } 7).1 =
        .error (.loadFailed .emptyLoad) ↔
        ({ envBase with finalCount := 3 } : JcapEnv).finalCount = 0) ∧
     (({ envBase with finalCount := 3 } : JcapEnv).finalCount ≠ 0 →
        (load_to_destination { envBase with finalCount := 3 } 7).1 = .ok ())) :=
  ⟨load_raises_iff_postwrite_count_zero { envBase with finalCount := 0 } 7 rfl rfl,
   load_raises_iff_postwrite_count_zero { envBase with finalCount := 3 } 7 rfl rfl⟩

/-- C4: for every configuration whose type key is present but not a supported
job type, execute_job returns the standardized Failed result carrying the
unknown-job-type error, with an empty event trace: no handler dispatch and no
warehouse, object-store or notification call. -/
theorem unknown_job_type_fails_without_side_effects
    (s : Settings) (cfg : JobConfig) (jenv : JcapEnv) (penv : PocEnv)
    (t : String) (ht : cfg.type? = some t)
    (hu : supported_job_types.contains t = false) :
    execute_job s cfg jenv penv =
      (create_error_result (cfg.id?.getD "unknown")
         (cfg.name?.getD ("job-" ++ cfg.id?.getD "unknown")) t
         (.unknownJobType t supported_job_types), []) := by
  have hu2 : t ∉ supported_job_types := by simpa using hu
  simp [execute_job, resolvedJobType, ht, hu2]

/-- C4 witness: a concrete configuration with the unsupported type value
generic_etl. -/
theorem unknown_job_type_fails_without_side_effects_witness :
    execute_job settingsOk
      { id? := some "j1", name? := some "bad job", type? := some "generic_etl",
        load_date? := none, limit? := none } envBase pocBase =
      (create_error_result "j1" "bad job" "generic_etl"
         (.unknownJobType "generic_etl" supported_job_types), []) :=
  unknown_job_type_fails_without_side_effects settingsOk
    { id? := some "j1", name? := some "bad job", type? := some "generic_etl",
      load_date? := none, limit? := none } envBase pocBase
    "generic_etl" rfl (by decide)

/-- C9: for every configuration with no type key at all, execute_job silently
substitutes the development job type control_m_poc_etl, passes configuration
validation (which checks nothing for that type) and dispatches the
development handler with the configured limit. -/
theorem missing_type_defaults_to_development_handler
    (s : Settings) (cfg : JobConfig) (jenv : JcapEnv) (penv : PocEnv)
    (ht : cfg.type? = none) :
    execute_job s cfg jenv penv =
      ({ (run_control_m_poc_etl penv (cfg.limit?.getD 10)).1 with
           job_id := some (cfg.id?.getD "unknown"),
           job_name := some (cfg.name?.getD ("job-" ++ cfg.id?.getD "unknown")),
           job_type := some "control_m_poc_etl" },
       Ev.invokeHandler "control_m_poc_etl" ::
         (run_control_m_poc_etl penv (cfg.limit?.getD 10)).2) := by
  simp [execute_job, resolvedJobType, ht, validate_for_job_type,
    supported_job_types]

/-- C9 witness: a concrete configuration without a type key is executed by the
development handler. -/
theorem missing_type_defaults_to_development_handler_witness :
    execute_job settingsOk
      { id? := some "j2", name? := none, type? := none,
        load_date? := none, limit? := some 5 } envBase pocBase =
      ({ (run_control_m_poc_etl pocBase 5).1 with
           job_id := some "j2", job_name := some "job-j2",
           job_type := some "control_m_poc_etl" },
       Ev.invokeHandler "control_m_poc_etl" ::
         (run_control_m_poc_etl pocBase 5).2) :=
  missing_type_defaults_to_development_handler settingsOk
    { id? := some "j2", name? := none, type? := none,
      load_date? := none, limit? := some 5 } envBase pocBase rfl

/-- C10: the module name imported by _load_from_secrets_manager does not
exist in the repository (the file on disk is utils.secrets_manger, with the
transposed letters), so the import always fails, the exception is caught, and
settings construction leaves every field exactly as initialised from the
environment and defaults: the secrets provider is never consulted. -/
theorem secrets_import_always_fails_no_provider_consulted :
    repoModules.contains secretsImportName = false ∧
    "utils.secrets_manger" ∈ repoModules ∧
    ∀ (s : Settings) (secrets : SecretsOracle),
      load_from_secrets_manager s secrets = (s, false) :=
  ⟨by decide, by decide, fun _ _ => rfl⟩

/-- Helper: a required field is listed in missing_fields exactly when its
value is empty (validate_for_job_type collects all of them, not only the
first). -/
theorem missingFields_spec (s : Settings) :
    ∀ p ∈ requiredFieldsJcap s, (p.2 = "" ↔ p.1 ∈ missingFields s) := by
  intro p hp
  simp only [requiredFieldsJcap, List.mem_cons, List.not_mem_nil, or_false] at hp
  rcases hp with rfl | rfl | rfl | rfl | rfl | rfl | rfl | rfl | rfl | rfl <;>
    simp [missingFields, requiredFieldsJcap, eq_comm]

/-- C3: for every production-type job configuration executed while required
fields are missing, execute_job returns a Failed result whose error payload
carries the complete missing-field list (each empty required field is
enumerated in it), the handler is not invoked and no external call happens
(the event trace is empty). -/
theorem production_missing_config_enumerates_all_fields
    (s : Settings) (cfg : JobConfig) (jenv : JcapEnv) (penv : PocEnv)
    (ht : cfg.type? = some "jcap_pa_etl") (hm : missingFields s ≠ []) :
    (execute_job s cfg jenv penv).1.status = "Failed" ∧
    (execute_job s cfg jenv penv).1.error =
      some (.configurationFailed "jcap_pa_etl" (missingFields s)) ∧
    (execute_job s cfg jenv penv).2 = [] ∧
    (∀ p ∈ requiredFieldsJcap s, (p.2 = "" ↔ p.1 ∈ missingFields s)) := by
  refine ⟨?_, ?_, ?_, missingFields_spec s⟩ <;>
    simp [execute_job, resolvedJobType, ht, supported_job_types,
      validate_for_job_type, hm, create_error_result]

/-- C3 witness: with CDP_REDSHIFT_HOST and JCAP_REDSHIFT_USER both empty, the
Failed result enumerates exactly those two fields and the trace is empty. -/
theorem production_missing_config_enumerates_all_fields_witness :
    (execute_job settingsMissingTwo cfgJcap envBase pocBase).1.status = "Failed" ∧
    (execute_job settingsMissingTwo cfgJcap envBase pocBase).1.error =
      some (.configurationFailed "jcap_pa_etl"
        ["CDP_REDSHIFT_HOST", "JCAP_REDSHIFT_USER"]) ∧
    (execute_job settingsMissingTwo cfgJcap envBase pocBase).2 = [] ∧
    (∀ p ∈ requiredFieldsJcap settingsMissingTwo,
       (p.2 = "" ↔ p.1 ∈ missingFields settingsMissingTwo)) :=
  production_missing_config_enumerates_all_fields settingsMissingTwo cfgJcap
    envBase pocBase rfl (by decide)

/-- C5: the variance detector computes variance as the absolute difference of
the two counts and variance_percentage as variance over the previous count
times 100, defined as 0 whenever the previous count is 0; the threshold
comparison is boundary-inclusive, so whenever the percentage equals the
threshold exactly the alert fires (threshold_exceeded is set and the variance
alert email is attempted). -/
theorem variance_detector_formula_and_inclusive_threshold :
    (∀ current : Nat, variance_percentage 0 current = 0) ∧
    (∀ previous current : Nat, 0 < previous →
       variance_percentage previous current =
         |(current : ℚ) - (previous : ℚ)| / (previous : ℚ) * 100) ∧
    (∀ (threshold : ℚ) (alertSent : Bool) (previous current : Nat),
       variance_percentage previous current = threshold →
       (validate_and_alert threshold alertSent previous
          current).1.threshold_exceeded = true ∧
       Ev.emailVariance ∈
         (validate_and_alert threshold alertSent previous current).2) := by
  refine ⟨?_, ?_, ?_⟩
  · intro current
    simp [variance_percentage]
  · intro previous current hp
    simp only [variance_percentage, hp, if_pos]
    rw [Int.cast_natAbs]
    push_cast
    ring
  · intro threshold alertSent previous current h
    simp [validate_and_alert, h]

/-- C5 witness: previous 100 and current 105 give exactly 5 percent, and with
threshold 5 the alert fires at the boundary. -/
theorem variance_detector_witness :
    (variance_percentage 0 7 = 0) ∧
    (variance_percentage 100 105 = |(105 : ℚ) - 100| / 100 * 100) ∧
    ((validate_and_alert 5 true 100 105).1.threshold_exceeded = true ∧
     Ev.emailVariance ∈ (validate_and_alert 5 true 100 105).2) :=
  ⟨variance_detector_formula_and_inclusive_threshold.1 7,
   variance_detector_formula_and_inclusive_threshold.2.1 100 105 (by norm_num),
   variance_detector_formula_and_inclusive_threshold.2.2 5 true 100 105
     (by norm_num [variance_percentage])⟩

/-- Helper: the production handler either fails through its except block
(whose dictionary is handlerFailedResult) or succeeds. -/
theorem run_jcap_shape (s : Settings) (env : JcapEnv) :
    (∃ e, (run_jcap_pa_etl s env).1 = handlerFailedResult (.jcap e)) ∨
    (run_jcap_pa_etl s env).1.status = "Success" := by
  unfold run_jcap_pa_etl
  repeat' split
  all_goals first
    | exact Or.inl ⟨_, rfl⟩
    | exact Or.inr rfl

/-- Helper: a Failed result of the production handler never carries a
rows_processed key (its except block builds the dictionary without one). -/
theorem run_jcap_failed_no_rows (s : Settings) (env : JcapEnv)
    (h : (run_jcap_pa_etl s env).1.status = "Failed") :
    (run_jcap_pa_etl s env).1.rows_processed = none := by
  rcases run_jcap_shape s env with ⟨e, he⟩ | hsucc
  · rw [he]
    rfl
  · rw [hsucc] at h
    exact absurd h (by decide)

/-- Helper: the development handler either fails through its except block or
succeeds. -/
theorem run_poc_shape (penv : PocEnv) (limit : Nat) :
    (∃ e, (run_control_m_poc_etl penv limit).1 = handlerFailedResult (.poc e)) ∨
    (run_control_m_poc_etl penv limit).1.status = "Success" := by
  unfold run_control_m_poc_etl
  repeat' split
  all_goals first
    | exact Or.inl ⟨_, rfl⟩
    | exact Or.inr rfl

/-- Helper: a Failed result of the development handler never carries a
rows_processed key. -/
theorem run_poc_failed_no_rows (penv : PocEnv) (limit : Nat)
    (h : (run_control_m_poc_etl penv limit).1.status = "Failed") :
    (run_control_m_poc_etl penv limit).1.rows_processed = none := by
  rcases run_poc_shape penv limit with ⟨e, he⟩ | hsucc
  · rw [he]
    rfl
  · rw [hsucc] at h
    exact absurd h (by decide)

/-- C6 counterexample: a production job whose backup truncation fails yields
a Failed result from execute_job whose rows_processed key is absent, not 0:
the claim that every Failed result carries rows_processed = 0 is false for
failures caught inside a handler. -/
theorem failed_result_without_rows_processed_counterexample :
    (execute_job settingsOk cfgJcap envBackupFail pocBase).1.status =
      "Failed" ∧
    (execute_job settingsOk cfgJcap envBackupFail pocBase).1.rows_processed ≠
      some 0 := by
  decide

/-- C6 amended: Failed results built by execute_job itself through
_create_error_result (unknown job type, configuration validation failure)
carry rows_processed = 0, but a Failed result returned from inside a handler
(whose except block builds the dictionary without the key) reaches the caller
with no rows_processed at all. -/
theorem failed_results_rows_processed_split
    (s : Settings) (cfg : JobConfig) (jenv : JcapEnv) (penv : PocEnv) :
    (supported_job_types.contains (resolvedJobType cfg) = false →
       (execute_job s cfg jenv penv).1.status = "Failed" ∧
       (execute_job s cfg jenv penv).1.rows_processed = some 0) ∧
    (∀ missing, validate_for_job_type s (resolvedJobType cfg) = .error missing →
       (execute_job s cfg jenv penv).1.status = "Failed" ∧
       (execute_job s cfg jenv penv).1.rows_processed = some 0) ∧
    (supported_job_types.contains (resolvedJobType cfg) = true →
       validate_for_job_type s (resolvedJobType cfg) = .ok () →
       (execute_job s cfg jenv penv).1.status = "Failed" →
       (execute_job s cfg jenv penv).1.rows_processed = none) := by
  refine ⟨?_, ?_, ?_⟩
  · intro hu
    have hu2 : resolvedJobType cfg ∉ supported_job_types := by simpa using hu
    simp [execute_job, hu2, create_error_result]
  · intro missing hv
    by_cases hu : resolvedJobType cfg ∈ supported_job_types
    · simp [execute_job, hu, hv, create_error_result]
    · simp [execute_job, hu, create_error_result]
  · intro hu hv hs
    simp only [execute_job, hu, hv, Bool.not_true, Bool.false_eq_true,
      if_false] at hs ⊢
    by_cases hc : resolvedJobType cfg = "control_m_poc_etl"
    · simp only [hc, if_pos rfl] at hs ⊢
      exact run_poc_failed_no_rows penv _ hs
    · simp only [if_neg hc] at hs ⊢
      exact run_jcap_failed_no_rows s jenv hs

/-- C6 amended witness: an unknown job type gives rows_processed = 0, a
missing-configuration production job gives rows_processed = 0, and a
production job failing inside the handler gives an absent rows_processed. -/
theorem failed_results_rows_processed_split_witness :
    ((execute_job settingsOk
        { cfgJcap with type? := some "generic_etl" } envBase pocBase).1.status =
          "Failed" ∧
     (execute_job settingsOk
        { cfgJcap with type? := some "generic_etl" }
        envBase pocBase).1.rows_processed = some 0) ∧
    ((execute_job settingsMissingTwo cfgJcap envBase pocBase).1.status =
        "Failed" ∧
     (execute_job settingsMissingTwo cfgJcap envBase
        pocBase).1.rows_processed = some 0) ∧
    ((execute_job settingsOk cfgJcap envBackupFail pocBase).1.rows_processed =
        none) :=
  ⟨(failed_results_rows_processed_split settingsOk
      { cfgJcap with type? := some "generic_etl" } envBase pocBase).1
      (by decide),
   (failed_results_rows_processed_split settingsMissingTwo cfgJcap envBase
      pocBase).2.1 ["CDP_REDSHIFT_HOST", "JCAP_REDSHIFT_USER"] rfl,
   (failed_results_rows_processed_split settingsOk cfgJcap envBackupFail
      pocBase).2.2 (by decide) rfl (by decide)⟩

/-- Helper: the statistics update of one run commits regardless of the
shutdown flag: iterBody only consults the flag after updateStats. -/
theorem iterBody_fst (flag : Nat → Bool) (interval : Nat) (s : RunStats)
    (o : RunOutcome) (t : Nat) :
    (iterBody flag interval s o t).1 = updateStats s o := by
  unfold iterBody
  split <;> rfl

/-- Helper: one run keeps the balance equation of the statistics. -/
theorem updateStats_balance (s : RunStats) (o : RunOutcome)
    (h : s.total_runs = s.successful_runs + s.failed_runs) :
    (updateStats s o).total_runs =
      (updateStats s o).successful_runs + (updateStats s o).failed_runs := by
  cases o <;> simp [updateStats] <;> omega

/-- Helper: one run moves every counter weakly upward. -/
theorem updateStats_mono (s : RunStats) (o : RunOutcome) :
    s.total_runs ≤ (updateStats s o).total_runs ∧
    s.successful_runs ≤ (updateStats s o).successful_runs ∧
    s.failed_runs ≤ (updateStats s o).failed_runs ∧
    s.total_rows_processed ≤ (updateStats s o).total_rows_processed := by
  cases o <;> simp [updateStats] <;> omega

/-- Helper: folding runs preserves the balance equation. -/
theorem foldl_updateStats_balance (l : List RunOutcome) :
    ∀ s : RunStats, s.total_runs = s.successful_runs + s.failed_runs →
      (l.foldl updateStats s).total_runs =
        (l.foldl updateStats s).successful_runs +
        (l.foldl updateStats s).failed_runs := by
  induction l with
  | nil => intro s h; simpa using h
  | cons o l ih =>
      intro s h
      simpa [List.foldl_cons] using ih (updateStats s o) (updateStats_balance s o h)

/-- Helper: folding runs moves every counter weakly upward. -/
theorem foldl_updateStats_mono (l : List RunOutcome) :
    ∀ s : RunStats,
      s.total_runs ≤ (l.foldl updateStats s).total_runs ∧
      s.successful_runs ≤ (l.foldl updateStats s).successful_runs ∧
      s.failed_runs ≤ (l.foldl updateStats s).failed_runs ∧
      s.total_rows_processed ≤ (l.foldl updateStats s).total_rows_processed := by
  induction l with
  | nil => intro s; simp
  | cons o l ih =>
      intro s
      have h1 := updateStats_mono s o
      have h2 := ih (updateStats s o)
      simp only [List.foldl_cons]
      exact ⟨h1.1.trans h2.1, h1.2.1.trans h2.2.1,
             h1.2.2.1.trans h2.2.2.1, h1.2.2.2.trans h2.2.2.2⟩

/-- Helper: the supervisor loop preserves the balance equation for every
shutdown-flag behaviour and every outcome sequence. -/
theorem contLoop_balance (flag : Nat → Bool) (outcomes : Nat → RunOutcome)
    (interval : Nat) :
    ∀ (fuel : Nat) (s : RunStats) (i t : Nat),
      s.total_runs = s.successful_runs + s.failed_runs →
      ((contLoop flag outcomes interval fuel s i t).1).total_runs =
        ((contLoop flag outcomes interval fuel s i t).1).successful_runs +
        ((contLoop flag outcomes interval fuel s i t).1).failed_runs := by
  intro fuel
  induction fuel with
  | zero => intro s i t h; simpa [contLoop] using h
  | succ n ih =>
      intro s i t h
      unfold contLoop
      split
      · simpa using h
      · simp only [iterBody_fst]
        exact ih _ _ _ (updateStats_balance s (outcomes i) h)

/-- Helper: with the shutdown flag never raised, the supervisor executes all
fuel runs and its statistics are exactly the fold of updateStats over the
outcome sequence, whatever the outcomes are. -/
theorem contLoop_noShutdown_fst (outcomes : Nat → RunOutcome)
    (interval : Nat) :
    ∀ (fuel : Nat) (s : RunStats) (i t : Nat),
      (contLoop noShutdown outcomes interval fuel s i t).1 =
        (runSeq outcomes i fuel).foldl updateStats s := by
  intro fuel
  induction fuel with
  | zero => intro s i t; simp [contLoop, runSeq]
  | succ n ih =>
      intro s i t
      unfold contLoop
      simp only [noShutdown, Bool.false_eq_true, if_false, iterBody_fst,
        runSeq, List.foldl_cons]
      exact ih _ _ _

/-- Helper: the outcomes of n + m runs split into the first n and the next
m runs. -/
theorem runSeq_add (outcomes : Nat → RunOutcome) :
    ∀ (n m i : Nat),
      runSeq outcomes i (n + m) =
        runSeq outcomes i n ++ runSeq outcomes (i + n) m := by
  intro n
  induction n with
  | zero => intro m i; simp [runSeq]
  | succ n ih =>
      intro m i
      have hadd : n + 1 + m = (n + m) + 1 := by omega
      have hidx : i + 1 + n = i + (n + 1) := by omega
      rw [hadd]
      simp only [runSeq, List.cons_append]
      rw [ih m (i + 1), hidx]

/-- C7: in continuous mode the run statistics are monotonically non-decreasing
across runs, and after every completed run the equation total_runs =
successful_runs + failed_runs holds: the loop statistics satisfy the balance
equation for every shutdown behaviour and fuel, the fold of the per-run
update is componentwise monotone over any prefix, and statistics after n
runs are componentwise below statistics after n + m runs. -/
theorem continuous_stats_balanced_and_monotone :
    (∀ (flag : Nat → Bool) (outcomes : Nat → RunOutcome) (interval fuel : Nat),
       ((contLoop flag outcomes interval fuel initStats 0 0).1).total_runs =
         ((contLoop flag outcomes interval fuel initStats 0 0).1).successful_runs +
         ((contLoop flag outcomes interval fuel initStats 0 0).1).failed_runs) ∧
    (∀ (l1 l2 : List RunOutcome),
       (statsAfter l1).total_runs ≤ (statsAfter (l1 ++ l2)).total_runs ∧
       (statsAfter l1).successful_runs ≤ (statsAfter (l1 ++ l2)).successful_runs ∧
       (statsAfter l1).failed_runs ≤ (statsAfter (l1 ++ l2)).failed_runs ∧
       (statsAfter l1).total_rows_processed ≤
         (statsAfter (l1 ++ l2)).total_rows_processed) ∧
    (∀ (outcomes : Nat → RunOutcome) (interval n m : Nat),
       ((contLoop noShutdown outcomes interval n initStats 0 0).1).total_runs ≤
         ((contLoop noShutdown outcomes interval (n + m) initStats 0 0).1).total_runs ∧
       ((contLoop noShutdown outcomes interval n initStats 0 0).1).successful_runs ≤
         ((contLoop noShutdown outcomes interval (n + m) initStats 0 0).1).successful_runs ∧
       ((contLoop noShutdown outcomes interval n initStats 0 0).1).failed_runs ≤
         ((contLoop noShutdown outcomes interval (n + m) initStats 0 0).1).failed_runs ∧
       ((contLoop noShutdown outcomes interval n initStats 0 0).1).total_rows_processed ≤
         ((contLoop noShutdown outcomes interval (n + m) initStats 0 0).1).total_rows_processed) := by
  refine ⟨?_, ?_, ?_⟩
  · intro flag outcomes interval fuel
    exact contLoop_balance flag outcomes interval fuel initStats 0 0 rfl
  · intro l1 l2
    simp only [statsAfter, List.foldl_append]
    exact foldl_updateStats_mono l2 (l1.foldl updateStats initStats)
  · intro outcomes interval n m
    rw [contLoop_noShutdown_fst outcomes interval n initStats 0 0,
        contLoop_noShutdown_fst outcomes interval (n + m) initStats 0 0,
        runSeq_add outcomes n m 0, List.foldl_append]
    exact foldl_updateStats_mono (runSeq outcomes (0 + n) m)
      ((runSeq outcomes 0 n).foldl updateStats initStats)

/-- C8: the supervisor never stops because a run failed and observes shutdown
only between runs: (1) the statistics effect of a run commits independently
of the flag (a started run is never aborted); (2) with the flag never raised
the loop executes every run whatever the outcomes, so a Failed run or an
exception never ends the loop; (3) the inter-run wait performs at most one
flag poll per sleep second; (4) a flag raised at a wait tick is observed at
that tick immediately. -/
theorem supervisor_failure_tolerant_shutdown_points :
    (∀ (flag : Nat → Bool) (interval : Nat) (s : RunStats) (o : RunOutcome)
       (t : Nat), (iterBody flag interval s o t).1 = updateStats s o) ∧
    (∀ (outcomes : Nat → RunOutcome) (interval fuel : Nat) (s : RunStats)
       (i t : Nat),
       (contLoop noShutdown outcomes interval fuel s i t).1 =
         (runSeq outcomes i fuel).foldl updateStats s) ∧
    (∀ (flag : Nat → Bool) (k t : Nat), (waitPolls flag k t).2 ≤ t + k) ∧
    (∀ (flag : Nat → Bool) (k t : Nat), flag t = true →
       waitPolls flag (k + 1) t = (true, t + 1)) := by
  refine ⟨iterBody_fst, ?_, ?_, ?_⟩
  · intro outcomes interval fuel s i t
    exact contLoop_noShutdown_fst outcomes interval fuel s i t
  · intro flag k
    induction k with
    | zero => intro t; simp [waitPolls]
    | succ n ih =>
        intro t
        unfold waitPolls
        split
        · omega
        · have := ih (t + 1)
          omega
  · intro flag k t h
    simp [waitPolls, h]

/-- C8 witness: with a flag that is already raised, a started run still
commits its statistics, and the first wait tick observes the shutdown
immediately. -/
theorem supervisor_failure_tolerant_shutdown_points_witness :
    (iterBody (fun _ => true) 60 initStats .failed 0).1 =
      updateStats initStats .failed ∧
    waitPolls (fun _ => true) 3 7 = (true, 8) :=
  ⟨supervisor_failure_tolerant_shutdown_points.1 (fun _ => true) 60 initStats
     .failed 0,
   supervisor_failure_tolerant_shutdown_points.2.2.2 (fun _ => true) 2 7 rfl⟩

end SparkEtl
